import Mathlib

/-!
Shallow embedding of the client-side monitoring layer of the
tanstack-demo repository: session tracking, error filtering, the
bounded error queue, Web Vitals rating and summary, the fetch wrapper,
and the HTTP delivery functions.  Numeric JS values (timestamps, metric
values) are modelled as ℚ where fractional values occur and as ℕ where
the source only ever handles integers.  Asynchronous delivery is
modelled by returning the request that would be issued (`Option` —
`none` means no network call), and the monkey-patched `fetch` wrapper
by a pure function from the underlying transport outcome to the pair
(outcome handed back to the caller, telemetry events produced).
-/

namespace Monitoring

/-! ### String helpers

The ignore filters of `src/config/monitoring.ts` are regular
expressions whose patterns are either plain literals (tested anywhere
in the string) or literals anchored with `^` (tested at the start).
We model them with explicit character-list matching so that every
theorem can be evaluated by the kernel. -/

/-- `listStartsWith s p` is true when `p` is an initial segment of `s`. -/
def listStartsWith : List Char → List Char → Bool
  | _, [] => true
  | [], _ :: _ => false
  | a :: s, b :: p => a == b && listStartsWith s p

/-- JS `String.prototype.startsWith` / an `^`-anchored literal regexp. -/
def strStartsWith (s pat : String) : Bool :=
  listStartsWith s.data pat.data

def strContainsAux : List Char → List Char → Bool
  | [], pat => pat.isEmpty
  | s@(_ :: rest), pat => listStartsWith s pat || strContainsAux rest pat

/-- An unanchored literal regexp `/pat/.test s`: `pat` occurs somewhere in `s`. -/
def strContains (s pat : String) : Bool :=
  strContainsAux s.data pat.data

/-! ### Configuration (`src/config/monitoring.ts`) -/

inductive Environment
  | development
  | staging
  | production
deriving DecidableEq, Repr

/-- `MonitoringConfig` from `src/types/monitoring.d.ts`; `apiEndpoint`
and `sentryDsn` are optional environment-supplied strings. -/
structure MonitoringConfig where
  enableErrorTracking : Bool
  enablePerformanceTracking : Bool
  enableWebVitals : Bool
  sampleRate : ℚ
  environment : Environment
  apiEndpoint : Option String
  sentryDsn : Option String
deriving DecidableEq, Repr

/-- `errorFilters.ignoreMessages`: the four unanchored literal patterns. -/
def ignoreMessagePatterns : List String :=
  ["Script error", "Non-Error promise rejection captured",
   "ResizeObserver loop limit exceeded", "ChunkLoadError"]

/-- `errorFilters.ignoreErrors`: exact-match message list. -/
def ignoreErrorsList : List String :=
  ["Network Error", "NetworkError", "AbortError"]

/-- `errorFilters.ignoreUrls`: `/extensions\//` is unanchored, the other
two patterns are `^`-anchored. -/
def matchesIgnoreUrl (url : String) : Bool :=
  strContains url "extensions/" || strStartsWith url "chrome://" ||
    strStartsWith url "moz-extension://"

/-- `shouldIgnoreError` from `src/utils/monitoring.ts`: the message is
checked against the pattern list, then the exact-match list, then (when
a URL is supplied) the URL patterns. -/
def shouldIgnoreError (message : String) (url : Option String) : Bool :=
  if ignoreMessagePatterns.any (fun p => strContains message p) then true
  else if ignoreErrorsList.contains message then true
  else
    match url with
    | some u => matchesIgnoreUrl u
    | none => false

/-! ### Records (`src/types/monitoring.d.ts`) -/

structure UserSession where
  sessionId : String
  startTime : ℕ
  lastActivity : ℕ
  pageViews : ℕ
  errors : ℕ
deriving DecidableEq, Repr

structure PerformanceMetric where
  name : String
  value : ℚ
  timestamp : ℕ
  url : String
  sessionId : String
deriving DecidableEq, Repr

structure NetworkError where
  url : String
  method : String
  status : ℕ
  statusText : String
  timestamp : ℕ
  duration : ℕ
  sessionId : String
deriving DecidableEq, Repr

structure ErrorInfo where
  message : String
  stack : Option String
  componentStack : Option String
  errorBoundary : Option String
  timestamp : ℕ
  url : String
  userAgent : String
  sessionId : String
deriving DecidableEq, Repr

/-- `sendErrorToService` accepts `NetworkError | ErrorInfo`. -/
inductive ErrorPayload
  | network (e : NetworkError)
  | info (e : ErrorInfo)
deriving DecidableEq, Repr

structure CustomEventRecord where
  name : String
  timestamp : ℕ
  sessionId : String
deriving DecidableEq, Repr

/-! ### HTTP delivery (`src/utils/monitoring.ts`, lines 158–206)

Each `send*ToService` function first checks `monitoringConfig.apiEndpoint`
and returns without any network activity when it is absent; otherwise it
issues exactly one POST.  The `try`/`catch` around the `fetch` swallows
every delivery failure, so the functions never throw: we model them as
total functions returning the request issued, `none` meaning no network
call was made.  None of them reads `sampleRate`. -/

structure PostRequest (α : Type) where
  url : String
  body : α
deriving DecidableEq, Repr

def sendMetricToService (cfg : MonitoringConfig) (metric : PerformanceMetric) :
    Option (PostRequest PerformanceMetric) :=
  match cfg.apiEndpoint with
  | none => none
  | some ep => some ⟨ep ++ "/metrics", metric⟩

def sendErrorToService (cfg : MonitoringConfig) (error : ErrorPayload) :
    Option (PostRequest ErrorPayload) :=
  match cfg.apiEndpoint with
  | none => none
  | some ep => some ⟨ep ++ "/errors", error⟩

def sendEventToService (cfg : MonitoringConfig) (event : CustomEventRecord) :
    Option (PostRequest CustomEventRecord) :=
  match cfg.apiEndpoint with
  | none => none
  | some ep => some ⟨ep ++ "/events", event⟩

/-! ### Web Vitals (`src/services/webVitals.ts`, `src/config/monitoring.ts`) -/

/-- `WebVitalsMetric['name']` is the closed union of the five signals. -/
inductive VitalName
  | CLS
  | FID
  | FCP
  | LCP
  | TTFB
deriving DecidableEq, Repr

structure Threshold where
  good : ℚ
  needsImprovement : ℚ
deriving DecidableEq, Repr

/-- `performanceThresholds` restricted to the five Web Vitals names (the
config object also holds custom thresholds keyed by other strings, which
`getRating` can never reach since its argument type is the closed union). -/
def performanceThresholds : VitalName → Threshold
  | .LCP => ⟨2500, 4000⟩
  | .FID => ⟨100, 300⟩
  | .CLS => ⟨1/10, 1/4⟩
  | .FCP => ⟨1800, 3000⟩
  | .TTFB => ⟨800, 1800⟩

inductive Rating
  | good
  | needsImprovement
  | poor
deriving DecidableEq, Repr

/-- `WebVitalsCollector.getRating`.  The source's `if (!threshold) return
'good'` guard is unreachable here because `performanceThresholds` is total
on the five names. -/
def getRating (name : VitalName) (value : ℚ) : Rating :=
  if value ≤ (performanceThresholds name).good then .good
  else if value ≤ (performanceThresholds name).needsImprovement then .needsImprovement
  else .poor

structure WebVitalsMetric where
  name : VitalName
  value : ℚ
  delta : ℚ
  id : String
  timestamp : ℚ
deriving DecidableEq, Repr

structure SummaryEntry where
  value : ℚ
  rating : Rating
deriving DecidableEq, Repr

/-- One iteration of the `forEach` in `WebVitalsCollector.getMetricsSummary`:
the entry for `metric.name` is overwritten when there is no entry yet or when
`metric.timestamp > summary[metric.name].value` (note: the source compares the
new record's timestamp against the stored *value*, the summary entry having no
timestamp field). -/
def summaryStep (summary : VitalName → Option SummaryEntry) (metric : WebVitalsMetric) :
    VitalName → Option SummaryEntry :=
  let overwrite :=
    match summary metric.name with
    | none => true
    | some entry => decide (metric.timestamp > entry.value)
  if overwrite then
    fun n => if n = metric.name then
        some ⟨metric.value, getRating metric.name metric.value⟩
      else summary n
  else summary

/-- `WebVitalsCollector.getMetricsSummary` over the collector's `metrics`
array (listed in the order the records were received/pushed). -/
def getMetricsSummary (metrics : List WebVitalsMetric) : VitalName → Option SummaryEntry :=
  metrics.foldl summaryStep (fun _ => none)

/-! ### Global error handler (`src/services/errorHandler.ts`) -/

/-- One entry of `GlobalErrorHandler.errorQueue`: the captured error (its
message) together with the `type` field of the context object attached by
the capture path. -/
structure QueuedError where
  message : String
  contextType : String
deriving DecidableEq, Repr

def maxQueueSize : ℕ := 100

/-- `GlobalErrorHandler.addToErrorQueue`: when the queue already holds
`maxQueueSize` records the oldest (front) one is shifted off, then the new
record is pushed at the back. -/
def addToErrorQueue (queue : List QueuedError) (e : QueuedError) : List QueuedError :=
  (if queue.length ≥ maxQueueSize then queue.tail else queue) ++ [e]

/-- `GlobalErrorHandler.cleanupErrorQueue` (60-second interval): trims the
queue to its most recent 50 records. -/
def cleanupErrorQueue (queue : List QueuedError) : List QueuedError :=
  if queue.length > 50 then queue.drop (queue.length - 50) else queue

/-- The effect of `GlobalErrorHandler.reportError` on the error queue: an
ignored error never reaches `processError`; otherwise `processError` appends
the record (context `type: 'manual_report'`) via `addToErrorQueue`. -/
def reportErrorQueue (queue : List QueuedError) (message : String) : List QueuedError :=
  if shouldIgnoreError message none then queue
  else addToErrorQueue queue ⟨message, "manual_report"⟩

structure ErrorStats where
  total : ℕ
  byType : String → ℕ
  recent : List QueuedError

/-- `GlobalErrorHandler.getErrorStats`: total queue length, per-context-type
counts, and the last 10 records. -/
def getErrorStats (queue : List QueuedError) : ErrorStats where
  total := queue.length
  byType := fun t => (queue.filter (fun e => e.contextType = t)).length
  recent := queue.drop (queue.length - 10)

/-! ### The fetch wrapper (`GlobalErrorHandler.setupNetworkErrorMonitoring`)

The wrapper times the underlying call, then: on a resolved response it
records a `slow_request` custom event when the duration exceeded 5000 ms,
records a `NetworkError` when `response.ok` is false (plus a Sentry message
for status ≥ 500), and hands the response back unchanged; on a transport
failure it records a `NetworkError` with status 0, reports to Sentry, and
rethrows the original error.  We model the underlying transport by its
outcome and the wrapper as a pure function returning the outcome passed to
the caller together with the list of telemetry events produced, in order. -/

structure FetchResponse where
  status : ℕ
  statusText : String
deriving DecidableEq, Repr

/-- `Response.ok`: status in the inclusive-exclusive range [200, 300). -/
def FetchResponse.ok (r : FetchResponse) : Bool :=
  decide (200 ≤ r.status) && decide (r.status < 300)

inductive FetchOutcome
  | success (r : FetchResponse)
  | failure (errMsg : String)
deriving DecidableEq, Repr

inductive MonEvent
  | networkError (e : NetworkError)
  | customEvent (name : String)
  | sentryMessage (msg : String)
  | sentryException (errMsg : String)
deriving DecidableEq, Repr

def MonEvent.isNetworkError : MonEvent → Bool
  | .networkError _ => true
  | _ => false

def MonEvent.isSlowRequestEvent : MonEvent → Bool
  | .customEvent n => n = "slow_request"
  | _ => false

def wrappedFetch (sessionId : String) (now : ℕ) (url method : String)
    (duration : ℕ) (outcome : FetchOutcome) : FetchOutcome × List MonEvent :=
  match outcome with
  | .success r =>
      let slowEvents : List MonEvent :=
        if duration > 5000 then [.customEvent "slow_request"] else []
      let httpErrorEvents : List MonEvent :=
        if r.ok then []
        else
          [.networkError ⟨url, method, r.status, r.statusText, now, duration, sessionId⟩] ++
            (if r.status ≥ 500 then
              [.sentryMessage ("Network Error: " ++ toString r.status ++ " " ++ r.statusText)]
            else [])
      (.success r, slowEvents ++ httpErrorEvents)
  | .failure e =>
      (.failure e,
        [.networkError ⟨url, method, 0, "Network Error", now, duration, sessionId⟩,
         .sentryException e])

/-! ### Session storage (`src/utils/monitoring.ts`)

`localStorage` is modelled as an association list from keys to parsed
session records, ordered; `setItem` overwrites in place when the key
exists and appends otherwise.  `getSessionId` draws on `sessionStorage`
and `Math.random`, so the session id is a parameter here. -/

def sessionKey (sessionId : String) : String :=
  "session_" ++ sessionId

def storeLookup (store : List (String × UserSession)) (k : String) :
    Option UserSession :=
  (store.find? (fun p => p.1 = k)).map (fun p => p.2)

def storeInsert (store : List (String × UserSession)) (k : String)
    (v : UserSession) : List (String × UserSession) :=
  if store.any (fun p => p.1 = k) then
    store.map (fun p => if p.1 = k then (k, v) else p)
  else store ++ [(k, v)]

/-- `getUserSession`: on a stored session, bump `lastActivity` to now,
persist, and return it; otherwise create a fresh session with
`startTime = lastActivity = now`, `pageViews = 1`, `errors = 0`.
Returns the session handed to the caller and the updated store. -/
def getUserSession (now : ℕ) (sessionId : String)
    (store : List (String × UserSession)) :
    UserSession × List (String × UserSession) :=
  match storeLookup store (sessionKey sessionId) with
  | some s =>
      let s' := { s with lastActivity := now }
      (s', storeInsert store (sessionKey sessionId) s')
  | none =>
      let s : UserSession := ⟨sessionId, now, now, 1, 0⟩
      (s, storeInsert store (sessionKey sessionId) s)

/-- `updateSessionStats`: reads the current session through
`getUserSession` (which already bumps `lastActivity` and persists),
increments the requested counter, sets `lastActivity = now` and persists
again. -/
def updateSessionStats (now : ℕ) (sessionId : String) (kind : Bool)
    (store : List (String × UserSession)) : List (String × UserSession) :=
  let r := getUserSession now sessionId store
  let s := r.1
  let s' :=
    if kind then { s with pageViews := s.pageViews + 1, lastActivity := now }
    else { s with errors := s.errors + 1, lastActivity := now }
  storeInsert r.2 (sessionKey s.sessionId) s'

/-- 24 hours in milliseconds — the fixed `maxAge` of
`cleanupExpiredSessions`. -/
def sessionMaxAge : ℕ := 24 * 60 * 60 * 1000

/-- `cleanupExpiredSessions`: iterates over every stored key; keys starting
with `session_` are removed when `now - lastActivity > sessionMaxAge`
 (JS subtraction on ms timestamps; a negative difference never exceeds the
positive threshold, which truncated ℕ subtraction reproduces).  Other keys
are untouched.  The source function returns `void`. -/
def cleanupExpiredSessions (now : ℕ) (store : List (String × UserSession)) :
    List (String × UserSession) :=
  store.filter (fun p =>
    if strStartsWith p.1 "session_" then
      decide (now - p.2.lastActivity ≤ sessionMaxAge)
    else true)

/-- `WebVitalsCollector.sendMetric`: posts the metric, its rating and the
ambient session/page identifiers to `<endpoint>/web-vitals`; skipped
entirely when no endpoint is configured, and delivery failures are
swallowed by its `try`/`catch`. -/
structure WebVitalPayload where
  metric : WebVitalsMetric
  rating : Rating
  sessionId : String
  url : String
  userAgent : String
deriving DecidableEq, Repr

def sendWebVitalMetric (cfg : MonitoringConfig) (metric : WebVitalsMetric)
    (rating : Rating) (sessionId url userAgent : String) :
    Option (PostRequest WebVitalPayload) :=
  match cfg.apiEndpoint with
  | none => none
  | some ep => some ⟨ep ++ "/web-vitals", ⟨metric, rating, sessionId, url, userAgent⟩⟩

/-! ### Helper lemmas -/

theorem length_addToErrorQueue_le (q : List QueuedError) (e : QueuedError)
    (h : q.length ≤ maxQueueSize) :
    (addToErrorQueue q e).length ≤ maxQueueSize := by
  unfold addToErrorQueue maxQueueSize at *
  by_cases hq : q.length ≥ 100
  · rw [if_pos hq]
    simp only [List.length_append, List.length_tail, List.length_cons, List.length_nil]
    omega
  · rw [if_neg hq]
    simp only [List.length_append, List.length_cons, List.length_nil]
    omega

/-- Folding `addToErrorQueue` over incoming records keeps exactly the most
recent `maxQueueSize` of the concatenated stream, in order. -/
theorem foldl_addToErrorQueue (l : List QueuedError) :
    ∀ q : List QueuedError, q.length ≤ maxQueueSize →
      List.foldl addToErrorQueue q l =
        (q ++ l).drop (q.length + l.length - maxQueueSize) := by
  induction l with
  | nil =>
      intro q h
      rw [List.foldl_nil, List.append_nil, List.length_nil, Nat.add_zero,
        Nat.sub_eq_zero_of_le h, List.drop_zero]
  | cons e t ih =>
      intro q h
      rw [List.foldl_cons, ih (addToErrorQueue q e) (length_addToErrorQueue_le q e h)]
      have hmax : maxQueueSize = 100 := rfl
      unfold addToErrorQueue
      by_cases hq : q.length ≥ maxQueueSize
      · rw [if_pos hq]
        obtain ⟨a, q', rfl⟩ : ∃ a q'', q = a :: q'' := by
          cases q with
          | nil => rw [hmax] at hq; simp at hq
          | cons a q'' => exact ⟨a, q'', rfl⟩
        have hlen : q'.length = 99 := by
          simp only [List.length_cons] at h hq
          omega
        rw [List.tail_cons]
        have h1 : (q' ++ [e]).length + t.length - maxQueueSize = t.length := by
          simp only [List.length_append, List.length_cons, List.length_nil, hlen, hmax]
          omega
        have h2 : (a :: q').length + (e :: t).length - maxQueueSize = t.length + 1 := by
          simp only [List.length_cons, hlen, hmax]
          omega
        rw [h1, h2, List.append_assoc, List.singleton_append, List.cons_append,
          List.drop_succ_cons]
      · rw [if_neg hq]
        have h1 : (q ++ [e]).length + t.length - maxQueueSize
            = q.length + (e :: t).length - maxQueueSize := by
          simp only [List.length_append, List.length_cons, List.length_nil]
          omega
        rw [h1, List.append_assoc, List.singleton_append]

/-- With every message unignored, `reportError` reduces to plain queue
insertion of `manual_report` records. -/
theorem foldl_reportErrorQueue_eq (msgs : List String) :
    ∀ q : List QueuedError, (∀ m ∈ msgs, shouldIgnoreError m none = false) →
      List.foldl reportErrorQueue q msgs =
        List.foldl addToErrorQueue q
          (msgs.map (fun m => QueuedError.mk m "manual_report")) := by
  induction msgs with
  | nil => intro q _; simp
  | cons m t ih =>
      intro q h
      have hm : shouldIgnoreError m none = false := h m (by simp)
      rw [List.map_cons, List.foldl_cons, List.foldl_cons]
      rw [show reportErrorQueue q m = addToErrorQueue q ⟨m, "manual_report"⟩ by
        simp [reportErrorQueue, hm]]
      exact ih _ (fun x hx => h x (by simp [hx]))

theorem lookup_map_insert (k : String) (v : UserSession) :
    ∀ t : List (String × UserSession), t.any (fun q => q.1 = k) = true →
      storeLookup (t.map (fun p => if p.1 = k then (k, v) else p)) k = some v := by
  intro t
  induction t with
  | nil => intro h; simp at h
  | cons p t ih =>
      intro h
      by_cases hp : p.1 = k
      · simp [storeLookup, List.map_cons, hp, List.find?_cons_of_pos]
      · have ht : t.any (fun q => q.1 = k) = true := by
          simpa [List.any_cons, hp] using h
        have step : (p.1 = k) = False := by simp [hp]
        simp only [List.map_cons, if_neg hp, storeLookup] at ih ⊢
        rw [List.find?_cons_of_neg _ (by simp [hp])]
        exact ih ht

theorem lookup_append_insert (k : String) (v : UserSession) :
    ∀ t : List (String × UserSession), t.any (fun q => q.1 = k) = false →
      storeLookup (t ++ [(k, v)]) k = some v := by
  intro t
  induction t with
  | nil => intro _; simp [storeLookup]
  | cons p t ih =>
      intro h
      have hp : ¬ (p.1 = k) := by
        intro hk
        simp [List.any_cons, hk] at h
      have ht : t.any (fun q => q.1 = k) = false := by
        simpa [List.any_cons, hp] using h
      simp only [List.cons_append, storeLookup] at ih ⊢
      rw [List.find?_cons_of_neg _ (by simp [hp])]
      exact ih ht

theorem storeLookup_storeInsert (k : String) (v : UserSession)
    (store : List (String × UserSession)) :
    storeLookup (storeInsert store k v) k = some v := by
  unfold storeInsert
  by_cases h : store.any (fun p => p.1 = k) = true
  · rw [if_pos h]
    exact lookup_map_insert k v store h
  · rw [if_neg h]
    exact lookup_append_insert k v store
      (by simp only [Bool.not_eq_true] at h; exact h)

/-! ### Claim theorems -/

/-- Configuration with `sampleRate = 0` and a configured endpoint, used to
exhibit the delivery behaviour under zero sampling. -/
def cfgSampleZero : MonitoringConfig :=
  ⟨true, true, true, 0, .development, some "https://collector.example", none⟩

/-- C1, counterexample: with `sampleRate = 0` and a configured endpoint the
claim predicts that no remote POST is ever issued for a captured record, but
`sendErrorToService` still issues one — no delivery function reads
`sampleRate` (it is only forwarded to the Sentry configuration). -/
theorem C1_sampling_counterexample :
    cfgSampleZero.sampleRate = 0 ∧
    cfgSampleZero.apiEndpoint = some "https://collector.example" ∧
    sendErrorToService cfgSampleZero
        (.network ⟨"https://api.example/users", "GET", 500, "Internal Server Error",
          1700000000000, 12, "sess-1"⟩) =
      some ⟨"https://collector.example/errors",
        .network ⟨"https://api.example/users", "GET", 500, "Internal Server Error",
          1700000000000, 12, "sess-1"⟩⟩ :=
  ⟨rfl, rfl, rfl⟩

/-- C1, amended: `sampleRate` does not gate delivery — with a configured
endpoint every record handed to `sendErrorToService` is POSTed even when
`sampleRate = 0` — while the local error queue does receive every captured
unignored record, so `getErrorStats().total` equals the capture count
whenever that count does not exceed the 100-record cap. -/
theorem C1_sampling_amended (cfg : MonitoringConfig) (ep : String)
    (e : ErrorPayload) (msgs : List String)
    (hep : cfg.apiEndpoint = some ep) (hrate : cfg.sampleRate = 0)
    (hlen : msgs.length ≤ maxQueueSize)
    (hun : ∀ m ∈ msgs, shouldIgnoreError m none = false) :
    sendErrorToService cfg e = some ⟨ep ++ "/errors", e⟩ ∧
    (getErrorStats (List.foldl reportErrorQueue [] msgs)).total = msgs.length := by
  constructor
  · unfold sendErrorToService
    rw [hep]
  · unfold getErrorStats
    rw [foldl_reportErrorQueue_eq msgs [] hun,
      foldl_addToErrorQueue _ [] (by simp [maxQueueSize])]
    simp only [List.nil_append, List.length_nil, List.length_drop, List.length_map,
      Nat.zero_add]
    omega

/-- C1, witness for the amended theorem. -/
theorem C1_sampling_amended_witness :
    sendErrorToService cfgSampleZero
        (.info ⟨"boom", none, none, none, 0, "u", "ua", "sess-1"⟩) =
      some ⟨"https://collector.example" ++ "/errors",
        .info ⟨"boom", none, none, none, 0, "u", "ua", "sess-1"⟩⟩ ∧
    (getErrorStats (List.foldl reportErrorQueue [] ["boom", "crash"])).total =
      (["boom", "crash"] : List String).length :=
  C1_sampling_amended cfgSampleZero "https://collector.example"
    (.info ⟨"boom", none, none, none, 0, "u", "ua", "sess-1"⟩) ["boom", "crash"]
    rfl rfl (by decide) (by decide)

/-- C2, counterexample: `cleanupExpiredSessions` takes no `max_age_ms`
parameter — its 24-hour threshold is hard-coded (and the source function
returns `void`, not a deletion count).  Instantiating the claim's universal
`max_age_ms` at 1 hour: a session last active 2 hours ago should then be
deleted, but the sweep retains it. -/
theorem C2_sweep_counterexample :
    (90000000 : ℕ) - 82800000 > 3600000 ∧
    cleanupExpiredSessions 90000000 [("session_a", ⟨"a", 0, 82800000, 1, 0⟩)] =
      [("session_a", ⟨"a", 0, 82800000, 1, 0⟩)] :=
  ⟨by decide, by decide⟩

/-- C2, amended: the sweep uses a fixed 24-hour maximum age and returns no
count; it deletes exactly the `session_`-keyed entries with
`now - lastActivity` over 24 hours and retains all others.  In particular a
session with `lastActivity = now - 25h` is removed while a session with
`lastActivity = now - 1h` is retained. -/
theorem C2_sweep_amended (now : ℕ) (store : List (String × UserSession))
    (p : String × UserSession) (s1 s2 : UserSession)
    (hnow : 90000000 ≤ now)
    (h1 : s1.lastActivity = now - 90000000)
    (h2 : s2.lastActivity = now - 3600000) :
    (p ∈ cleanupExpiredSessions now store ↔
      (p ∈ store ∧ (strStartsWith p.1 "session_" = true →
        now - p.2.lastActivity ≤ sessionMaxAge))) ∧
    cleanupExpiredSessions now [("session_a", s1), ("session_b", s2)] =
      [("session_b", s2)] := by
  constructor
  · unfold cleanupExpiredSessions
    rw [List.mem_filter]
    constructor
    · rintro ⟨hmem, hcond⟩
      refine ⟨hmem, fun hs => ?_⟩
      rw [if_pos hs] at hcond
      exact of_decide_eq_true hcond
    · rintro ⟨hmem, himp⟩
      refine ⟨hmem, ?_⟩
      by_cases hs : strStartsWith p.1 "session_" = true
      · rw [if_pos hs]
        exact decide_eq_true (himp hs)
      · rw [if_neg hs]
  · have ha : strStartsWith "session_a" "session_" = true := by decide
    have hb : strStartsWith "session_b" "session_" = true := by decide
    have e1 : now - s1.lastActivity = 90000000 := by rw [h1]; omega
    have e2 : now - s2.lastActivity = 3600000 := by rw [h2]; omega
    unfold cleanupExpiredSessions
    simp only [List.filter_cons, List.filter_nil, ha, hb, if_true, e1, e2,
      sessionMaxAge]
    norm_num

/-- C2, witness for the amended theorem. -/
theorem C2_sweep_amended_witness :
    (("session_a", (⟨"a", 0, 0, 1, 0⟩ : UserSession)) ∈
        cleanupExpiredSessions 90000000 [("session_a", ⟨"a", 0, 0, 1, 0⟩)] ↔
      (("session_a", (⟨"a", 0, 0, 1, 0⟩ : UserSession)) ∈
          [("session_a", (⟨"a", 0, 0, 1, 0⟩ : UserSession))] ∧
        (strStartsWith "session_a" "session_" = true →
          90000000 - 0 ≤ sessionMaxAge))) ∧
    cleanupExpiredSessions 90000000
        [("session_a", ⟨"a", 0, 0, 1, 0⟩), ("session_b", ⟨"b", 0, 86400000, 1, 0⟩)] =
      [("session_b", ⟨"b", 0, 86400000, 1, 0⟩)] :=
  C2_sweep_amended 90000000 [("session_a", ⟨"a", 0, 0, 1, 0⟩)]
    ("session_a", ⟨"a", 0, 0, 1, 0⟩) ⟨"a", 0, 0, 1, 0⟩ ⟨"b", 0, 86400000, 1, 0⟩
    (by decide) (by decide) (by decide)

/-- C3, failing input: `getMetricsSummary` compares the candidate record's
timestamp against the stored *value* (`metric.timestamp >
summary[metric.name].value` in the source; the summary entry stores no
timestamp), so a first record with a large value is never superseded: after
an LCP record (value 5000, timestamp 1) and a later LCP record (value 100,
timestamp 2 > 1), the summary still returns the first record's value and
rating instead of the most-recently-timestamped record's. -/
theorem C3_summary_failing_input :
    getMetricsSummary
        [⟨.LCP, 5000, 0, "v1", 1⟩, ⟨.LCP, 100, 0, "v1", 2⟩] .LCP =
      some ⟨5000, .poor⟩ ∧
    getMetricsSummary
        [⟨.LCP, 5000, 0, "v1", 1⟩, ⟨.LCP, 100, 0, "v1", 2⟩] .LCP ≠
      some ⟨100, .good⟩ ∧
    ((1 : ℚ) < 2) :=
  ⟨by decide, by decide, by decide⟩

/-- C4: starting from an empty queue, `N` `reportError` calls with unignored
errors leave `min(N, 100)` records in the queue, and exactly the oldest
records are dropped — the final queue is the incoming stream with its first
`N - 100` records removed, in order. -/
theorem C4_error_queue_fifo (msgs : List String)
    (h : ∀ m ∈ msgs, shouldIgnoreError m none = false) :
    (List.foldl reportErrorQueue [] msgs).length = min msgs.length maxQueueSize ∧
    List.foldl reportErrorQueue [] msgs =
      (msgs.map (fun m => QueuedError.mk m "manual_report")).drop
        (msgs.length - maxQueueSize) := by
  have hfold : List.foldl reportErrorQueue [] msgs =
      (msgs.map (fun m => QueuedError.mk m "manual_report")).drop
        (msgs.length - maxQueueSize) := by
    rw [foldl_reportErrorQueue_eq msgs [] h,
      foldl_addToErrorQueue _ [] (by simp [maxQueueSize])]
    simp only [List.nil_append, List.length_nil, List.length_map, Nat.zero_add]
  refine ⟨?_, hfold⟩
  rw [hfold]
  simp only [List.length_drop, List.length_map]
  omega

/-- C4, witness. -/
theorem C4_error_queue_fifo_witness :
    (List.foldl reportErrorQueue [] ["boom", "crash", "oops"]).length =
      min (["boom", "crash", "oops"] : List String).length maxQueueSize ∧
    List.foldl reportErrorQueue [] ["boom", "crash", "oops"] =
      ((["boom", "crash", "oops"] : List String).map
        (fun m => QueuedError.mk m "manual_report")).drop
        ((["boom", "crash", "oops"] : List String).length - maxQueueSize) :=
  C4_error_queue_fifo ["boom", "crash", "oops"] (by decide)

/-- C5: the rating function implements the fixed per-metric thresholds with
inclusive upper bounds — for LCP the claimed sample and boundary values, and
the boundary behaviour for FID, CLS, FCP and TTFB analogously. -/
theorem C5_rating_thresholds :
    getRating .LCP 2000 = .good ∧
    getRating .LCP 3000 = .needsImprovement ∧
    getRating .LCP 5000 = .poor ∧
    getRating .LCP 2500 = .good ∧
    getRating .LCP (2500001 / 1000) = .needsImprovement ∧
    getRating .FID 100 = .good ∧
    getRating .FID 300 = .needsImprovement ∧
    getRating .FID 301 = .poor ∧
    getRating .CLS (1 / 10) = .good ∧
    getRating .CLS (1 / 4) = .needsImprovement ∧
    getRating .CLS (3 / 10) = .poor ∧
    getRating .FCP 1800 = .good ∧
    getRating .FCP 3000 = .needsImprovement ∧
    getRating .FCP 3001 = .poor ∧
    getRating .TTFB 800 = .good ∧
    getRating .TTFB 1800 = .needsImprovement ∧
    getRating .TTFB 1801 = .poor :=
  ⟨by decide, by decide, by decide, by decide,
   by unfold getRating performanceThresholds; norm_num,
   by decide, by decide, by decide,
   by unfold getRating performanceThresholds; norm_num,
   by unfold getRating performanceThresholds; norm_num,
   by unfold getRating performanceThresholds; norm_num,
   by decide, by decide, by decide,
   by decide, by decide, by decide⟩

/-- C6: the fetch wrapper is transparent — the caller receives exactly the
underlying transport's outcome (a 404 response still resolves; a transport
error is rethrown) — while a 404 response produces exactly one
`NetworkError` record, with status 404, and a transport failure produces
exactly one `NetworkError` record, with status 0. -/
theorem C6_fetch_transparency (sessionId : String) (now : ℕ)
    (url method : String) (duration : ℕ) (outcome : FetchOutcome) :
    (wrappedFetch sessionId now url method duration outcome).1 = outcome ∧
    (∀ r : FetchResponse, outcome = .success r → r.status = 404 →
      (wrappedFetch sessionId now url method duration outcome).2.filter
          MonEvent.isNetworkError =
        [.networkError ⟨url, method, 404, r.statusText, now, duration, sessionId⟩]) ∧
    (∀ e : String, outcome = .failure e →
      (wrappedFetch sessionId now url method duration outcome).2.filter
          MonEvent.isNetworkError =
        [.networkError ⟨url, method, 0, "Network Error", now, duration, sessionId⟩]) := by
  refine ⟨?_, ?_, ?_⟩
  · cases outcome <;> rfl
  · rintro r rfl h404
    unfold wrappedFetch
    by_cases hd : duration > 5000 <;>
      simp [hd, FetchResponse.ok, h404, MonEvent.isNetworkError]
  · rintro e rfl
    unfold wrappedFetch
    simp [MonEvent.isNetworkError]

/-- C6, witness: a 404 response resolves to the caller and yields exactly one
status-404 `NetworkError` record. -/
theorem C6_fetch_transparency_witness :
    (wrappedFetch "sess-1" 7 "https://api.example/users" "GET" 10
        (.success ⟨404, "Not Found"⟩)).1 = .success ⟨404, "Not Found"⟩ ∧
    (wrappedFetch "sess-1" 7 "https://api.example/users" "GET" 10
        (.success ⟨404, "Not Found"⟩)).2.filter MonEvent.isNetworkError =
      [.networkError
        ⟨"https://api.example/users", "GET", 404, "Not Found", 7, 10, "sess-1"⟩] :=
  ⟨(C6_fetch_transparency "sess-1" 7 "https://api.example/users" "GET" 10
      (.success ⟨404, "Not Found"⟩)).1,
   (C6_fetch_transparency "sess-1" 7 "https://api.example/users" "GET" 10
      (.success ⟨404, "Not Found"⟩)).2.1 ⟨404, "Not Found"⟩ rfl rfl⟩

/-- C7, counterexample: a transport-level failure taking longer than 5000 ms
produces no `slow_request` event — the slow-request check lives only in the
response branch of the wrapper, which is skipped when the underlying call
throws. -/
theorem C7_slow_request_counterexample :
    (6000 : ℕ) > 5000 ∧
    (wrappedFetch "sess-1" 0 "https://api.example/slow" "GET" 6000
        (.failure "connection reset")).2.filter MonEvent.isSlowRequestEvent = [] :=
  ⟨by decide, by decide⟩

/-- C7, amended: a wrapped call whose measured duration exceeds 5000 ms
emits exactly one `slow_request` event when the transport produced a
response (whatever its status), and none when the call failed at the
transport level. -/
theorem C7_slow_request_amended (sessionId : String) (now : ℕ)
    (url method : String) (duration : ℕ) (h : duration > 5000) :
    (∀ r : FetchResponse,
      (wrappedFetch sessionId now url method duration (.success r)).2.filter
          MonEvent.isSlowRequestEvent = [.customEvent "slow_request"]) ∧
    (∀ e : String,
      (wrappedFetch sessionId now url method duration (.failure e)).2.filter
          MonEvent.isSlowRequestEvent = []) := by
  constructor
  · intro r
    unfold wrappedFetch
    by_cases hok : r.ok = true
    · simp [h, hok, MonEvent.isSlowRequestEvent]
    · by_cases h5 : r.status ≥ 500 <;>
        simp [h, hok, h5, MonEvent.isSlowRequestEvent]
  · intro e
    unfold wrappedFetch
    simp [MonEvent.isSlowRequestEvent]

/-- C7, witness for the amended theorem. -/
theorem C7_slow_request_amended_witness :
    (wrappedFetch "sess-1" 0 "https://api.example/slow" "GET" 6000
        (.success ⟨200, "OK"⟩)).2.filter MonEvent.isSlowRequestEvent =
      [.customEvent "slow_request"] ∧
    (wrappedFetch "sess-1" 0 "https://api.example/slow" "GET" 6000
        (.failure "connection reset")).2.filter MonEvent.isSlowRequestEvent = [] :=
  ⟨(C7_slow_request_amended "sess-1" 0 "https://api.example/slow" "GET" 6000
      (by decide)).1 ⟨200, "OK"⟩,
   (C7_slow_request_amended "sess-1" 0 "https://api.example/slow" "GET" 6000
      (by decide)).2 "connection reset"⟩

/-- C8: `shouldIgnoreError` is a pure function of the message, the optional
URL and the fixed filter configuration; a message matching a configured
pattern (such as "Script error") is ignored and never reaches the error
queue through `reportError`, while "Cannot read property x of undefined" is
not ignored. -/
theorem C8_should_ignore_filtering (queue : List QueuedError) (message : String)
    (h : shouldIgnoreError message none = true) :
    shouldIgnoreError "Script error" none = true ∧
    shouldIgnoreError "Cannot read property x of undefined" none = false ∧
    reportErrorQueue queue message = queue :=
  ⟨by decide, by decide, by simp [reportErrorQueue, h]⟩

/-- C8, witness. -/
theorem C8_should_ignore_filtering_witness :
    shouldIgnoreError "Script error" none = true ∧
    shouldIgnoreError "Cannot read property x of undefined" none = false ∧
    reportErrorQueue [] "Script error" = [] :=
  C8_should_ignore_filtering [] "Script error" (by decide)

/-- C9: with no endpoint configured, every delivery function performs no
network call for any record given to it (and, delivery being wrapped in a
failure-swallowing `try`/`catch` and modelled here as a total function,
never throws). -/
theorem C9_no_endpoint_no_network (cfg : MonitoringConfig)
    (metric : PerformanceMetric) (error : ErrorPayload) (event : CustomEventRecord)
    (vital : WebVitalsMetric) (rating : Rating) (sessionId url userAgent : String)
    (h : cfg.apiEndpoint = none) :
    sendMetricToService cfg metric = none ∧
    sendErrorToService cfg error = none ∧
    sendEventToService cfg event = none ∧
    sendWebVitalMetric cfg vital rating sessionId url userAgent = none := by
  unfold sendMetricToService sendErrorToService sendEventToService sendWebVitalMetric
  rw [h]
  exact ⟨rfl, rfl, rfl, rfl⟩

/-- Configuration with no endpoint, for the C9 witness. -/
def cfgNoEndpoint : MonitoringConfig :=
  ⟨true, true, true, 1, .development, none, none⟩

/-- C9, witness. -/
theorem C9_no_endpoint_no_network_witness :
    sendMetricToService cfgNoEndpoint ⟨"route_change", 120, 5, "u", "sess-1"⟩ = none ∧
    sendErrorToService cfgNoEndpoint
      (.info ⟨"boom", none, none, none, 0, "u", "ua", "sess-1"⟩) = none ∧
    sendEventToService cfgNoEndpoint ⟨"click", 0, "sess-1"⟩ = none ∧
    sendWebVitalMetric cfgNoEndpoint ⟨.LCP, 1200, 0, "id-1", 3⟩ .good "sess-1" "u" "ua" =
      none :=
  C9_no_endpoint_no_network cfgNoEndpoint ⟨"route_change", 120, 5, "u", "sess-1"⟩
    (.info ⟨"boom", none, none, none, 0, "u", "ua", "sess-1"⟩) ⟨"click", 0, "sess-1"⟩
    ⟨.LCP, 1200, 0, "id-1", 3⟩ .good "sess-1" "u" "ua" rfl

/-- C10: reading the current session through `getUserSession` on an existing
stored session sets its `lastActivity` to the current time and persists the
updated record, leaving `sessionId`, `startTime`, `pageViews` and `errors`
unchanged — a pure read already advances `lastActivity`. -/
theorem C10_getUserSession_updates_lastActivity (now : ℕ) (sessionId : String)
    (store : List (String × UserSession)) (s : UserSession)
    (h : storeLookup store (sessionKey sessionId) = some s) :
    (getUserSession now sessionId store).1.lastActivity = now ∧
    (getUserSession now sessionId store).1.sessionId = s.sessionId ∧
    (getUserSession now sessionId store).1.startTime = s.startTime ∧
    (getUserSession now sessionId store).1.pageViews = s.pageViews ∧
    (getUserSession now sessionId store).1.errors = s.errors ∧
    storeLookup (getUserSession now sessionId store).2 (sessionKey sessionId) =
      some (getUserSession now sessionId store).1 := by
  unfold getUserSession
  rw [h]
  exact ⟨rfl, rfl, rfl, rfl, rfl, storeLookup_storeInsert _ _ _⟩

/-- C10, witness. -/
theorem C10_getUserSession_updates_lastActivity_witness :
    (getUserSession 555 "a" [("session_a", ⟨"a", 1, 2, 3, 4⟩)]).1.lastActivity = 555 ∧
    (getUserSession 555 "a" [("session_a", ⟨"a", 1, 2, 3, 4⟩)]).1.sessionId = "a" ∧
    (getUserSession 555 "a" [("session_a", ⟨"a", 1, 2, 3, 4⟩)]).1.startTime = 1 ∧
    (getUserSession 555 "a" [("session_a", ⟨"a", 1, 2, 3, 4⟩)]).1.pageViews = 3 ∧
    (getUserSession 555 "a" [("session_a", ⟨"a", 1, 2, 3, 4⟩)]).1.errors = 4 ∧
    storeLookup (getUserSession 555 "a" [("session_a", ⟨"a", 1, 2, 3, 4⟩)]).2
        (sessionKey "a") =
      some ((getUserSession 555 "a" [("session_a", ⟨"a", 1, 2, 3, 4⟩)]).1) :=
  C10_getUserSession_updates_lastActivity 555 "a"
    [("session_a", ⟨"a", 1, 2, 3, 4⟩)] ⟨"a", 1, 2, 3, 4⟩ (by decide)

end Monitoring
